import Mathlib

/-!
Verification of the QuickCap device/stream helper layer
(`src/lib/videoUtils.ts`) and the stream lifecycle of its consuming page
component, against the repository's specification.

The JavaScript host media layer (getUserMedia, enumerateDevices,
getDisplayMedia) is modelled as an oracle (`Host`); `createMediaStream`
is embedded as a pure function of that oracle returning the promise
outcome together with the ordered list of host calls it issued.
-/

namespace QuickCap

/-! ## JavaScript string operations, over character lists -/

/-- JS `pre` occurring at the start of `s` (`String.prototype.startsWith`). -/
def charsStart : List Char → List Char → Bool
  | [], _ => true
  | _ :: _, [] => false
  | a :: as, b :: bs => a == b && charsStart as bs

/-- JS `s.includes(sub)`: contiguous occurrence of `sub` inside `s`. -/
def charsContain : List Char → List Char → Bool
  | [], sub => charsStart sub []
  | c :: rest, sub => charsStart sub (c :: rest) || charsContain rest sub

/-- JS `String.prototype.trim`: drop whitespace from both ends. -/
def charsTrim (s : List Char) : List Char :=
  ((s.dropWhile Char.isWhitespace).reverse.dropWhile Char.isWhitespace).reverse

/-- JS `label.split('(')[0].trim()`: the text before the first parenthesis
(the whole label when none), trimmed.  `split` always yields a nonempty
array, so the `[0]` access is total. -/
def labelStem (label : String) : List Char :=
  charsTrim (label.data.takeWhile (fun c => c != '('))

/-- JS `s.includes(sub)` with a `String` receiver. -/
def stringIncludes (s : String) (sub : List Char) : Bool :=
  charsContain s.data sub

/-! ## Data model: devices, tracks, streams -/

/-- Host device descriptor (`MediaDeviceInfo`), restricted to the fields the
code reads: `deviceId`, `label`, `kind` (`"videoinput"` / `"audioinput"`). -/
structure MediaDeviceInfo where
  deviceId : String
  label : String
  kind : String
deriving Repr, DecidableEq

/-- The kind of a media track. -/
inductive TrackKind
  | video
  | audio
deriving Repr, DecidableEq

/-- A `MediaStreamTrack`: identity, kind, and whether `stop()` has been
called on it. -/
structure MediaStreamTrack where
  id : Nat
  kind : TrackKind
  stopped : Bool
deriving Repr, DecidableEq

/-- A `MediaStream`: object identity plus its ordered track set. -/
structure MediaStream where
  id : Nat
  tracks : List MediaStreamTrack
deriving Repr, DecidableEq

/-- `stream.getTracks()`. -/
def MediaStream.getTracks (s : MediaStream) : List MediaStreamTrack :=
  s.tracks

/-- `stream.getAudioTracks()`. -/
def MediaStream.getAudioTracks (s : MediaStream) : List MediaStreamTrack :=
  s.tracks.filter (fun t => t.kind == TrackKind.audio)

/-- `stream.addTrack(t)`: appends the track (modelled functionally). -/
def MediaStream.addTrack (s : MediaStream) (t : MediaStreamTrack) : MediaStream :=
  { s with tracks := s.tracks ++ [t] }

/-- `track.stop()` (idempotent in the platform; modelled functionally). -/
def MediaStreamTrack.stop (t : MediaStreamTrack) : MediaStreamTrack :=
  { t with stopped := true }

/-! ## Constraint model -/

/-- A `{ exact: id }` device-id constraint — the only form the code builds. -/
structure ExactId where
  exact : String
deriving Repr, DecidableEq

/-- A `{ ideal: n }` numeric constraint — the only numeric form the code
builds. -/
structure IdealNum where
  ideal : Nat
deriving Repr, DecidableEq

/-- The video member of the constraints object built for the initial
video-only request. -/
structure VideoTrackConstraints where
  deviceId : ExactId
  width : IdealNum
  height : IdealNum
  frameRate : IdealNum
deriving Repr, DecidableEq

/-- The audio member of the constraints object built for the per-device
audio request. -/
structure AudioTrackConstraints where
  deviceId : ExactId
  echoCancellation : Bool
  noiseSuppression : Bool
  autoGainControl : Bool
deriving Repr, DecidableEq

/-- The `video:` field of a constraints object: `false` or a track
constraint record. -/
inductive VideoSpec
  | off
  | track (c : VideoTrackConstraints)
deriving Repr, DecidableEq

/-- The `audio:` field of a constraints object: `false`, plain `true`
(display capture), or a track constraint record. -/
inductive AudioSpec
  | off
  | on
  | track (c : AudioTrackConstraints)
deriving Repr, DecidableEq

/-- A `MediaStreamConstraints` object as the code builds them. -/
structure MediaStreamConstraints where
  video : VideoSpec
  audio : AudioSpec
deriving Repr, DecidableEq

/-! ## Host oracle -/

/-- An error raised by a host media call (opaque message). -/
structure HostError where
  message : String
deriving Repr, DecidableEq

/-- The host media layer, as an oracle fixing the response to every call the
code can make.  `enumFirst` and `enumSecond` are the answers to the first
and second `enumerateDevices` call within one `createMediaStream` run (the
code re-queries, so the two snapshots may differ). -/
structure Host where
  getUserMedia : MediaStreamConstraints → Except HostError MediaStream
  enumFirst : Except HostError (List MediaDeviceInfo)
  enumSecond : Except HostError (List MediaDeviceInfo)
  getDisplayMedia : MediaStreamConstraints → Except HostError MediaStream

/-- A host call issued by the code, recorded in execution order. -/
inductive HostCall
  | gum (c : MediaStreamConstraints)
  | enumDevices
  | gdm (c : MediaStreamConstraints)
deriving Repr, DecidableEq

/-! ## videoUtils.ts -/

/-- `getVideoDevices`: filter an enumeration snapshot down to
`videoinput` descriptors; an enumeration error yields `[]`. -/
def getVideoDevices (enumResult : Except HostError (List MediaDeviceInfo)) :
    List MediaDeviceInfo :=
  match enumResult with
  | Except.ok devices => devices.filter (fun device => device.kind == "videoinput")
  | Except.error _ => []

/-- `getAudioDevices`: filter an enumeration snapshot down to
`audioinput` descriptors; an enumeration error yields `[]`. -/
def getAudioDevices (enumResult : Except HostError (List MediaDeviceInfo)) :
    List MediaDeviceInfo :=
  match enumResult with
  | Except.ok devices => devices.filter (fun device => device.kind == "audioinput")
  | Except.error _ => []

/-- The `videoConstraints` object of `createMediaStream`: exact device id,
ideal width/height/frameRate, `audio: false`. -/
def videoConstraints (deviceId : String) (width height frameRate : Nat) :
    MediaStreamConstraints :=
  { video := VideoSpec.track
      { deviceId := { exact := deviceId },
        width := { ideal := width },
        height := { ideal := height },
        frameRate := { ideal := frameRate } },
    audio := AudioSpec.off }

/-- The predicate of the `audioDevices.find(ad => ...)` call: exact id match,
or (label truthy and some video device with the requested id whose trimmed
pre-parenthesis label text occurs in the audio label). -/
def audioMatches (deviceId : String) (videoDevices : List MediaDeviceInfo)
    (ad : MediaDeviceInfo) : Bool :=
  ad.deviceId == deviceId ||
    (ad.label != "" && videoDevices.any (fun vd =>
      vd.deviceId == deviceId && vd.label != "" &&
        stringIncludes ad.label (labelStem vd.label)))

/-- The `audioDevices.find(...)` lookup selecting the paired audio device. -/
def findAudioDevice (deviceId : String)
    (audioDevices videoDevices : List MediaDeviceInfo) : Option MediaDeviceInfo :=
  audioDevices.find? (audioMatches deviceId videoDevices)

/-- The constraints object of the per-device audio request: exact matched
device id, with echo cancellation, noise suppression and auto gain control
all disabled. -/
def audioConstraintsFor (audioDevice : MediaDeviceInfo) : MediaStreamConstraints :=
  { video := VideoSpec.off,
    audio := AudioSpec.track
      { deviceId := { exact := audioDevice.deviceId },
        echoCancellation := false,
        noiseSuppression := false,
        autoGainControl := false } }

/-- The constraints object of the `getDisplayMedia` fallback:
`{ video: false, audio: true }`. -/
def displayAudioConstraints : MediaStreamConstraints :=
  { video := VideoSpec.off, audio := AudioSpec.on }

/-- Merge step shared by both audio paths: add the acquired audio tracks to
the video stream when there are any. -/
def mergeAudioTracks (videoStream : MediaStream)
    (audioTracks : List MediaStreamTrack) : MediaStream :=
  if audioTracks.length > 0 then
    audioTracks.foldl MediaStream.addTrack videoStream
  else
    videoStream

/-- `createMediaStream` from `videoUtils.ts`, over a host oracle.  Returns
the promise outcome (stream or propagated error) together with the ordered
host calls issued.  The initial video-only request propagates its error;
everything after it sits in the `try` block whose `catch` returns the
video stream. -/
def createMediaStream (host : Host) (deviceId : String)
    (width height frameRate : Nat) (audio : Bool) :
    Except HostError MediaStream × List HostCall :=
  let vc := videoConstraints deviceId width height frameRate
  match host.getUserMedia vc with
  | Except.error e => (Except.error e, [HostCall.gum vc])
  | Except.ok videoStream =>
    if !audio then
      (Except.ok videoStream, [HostCall.gum vc])
    else
      let audioDevices := getAudioDevices host.enumFirst
      let videoDevices := getVideoDevices host.enumSecond
      match findAudioDevice deviceId audioDevices videoDevices with
      | none =>
        match host.getDisplayMedia displayAudioConstraints with
        | Except.error _ =>
          (Except.ok videoStream,
           [HostCall.gum vc, HostCall.enumDevices, HostCall.enumDevices,
            HostCall.gdm displayAudioConstraints])
        | Except.ok displayStream =>
          (Except.ok (mergeAudioTracks videoStream displayStream.getAudioTracks),
           [HostCall.gum vc, HostCall.enumDevices, HostCall.enumDevices,
            HostCall.gdm displayAudioConstraints])
      | some audioDevice =>
        let ac := audioConstraintsFor audioDevice
        match host.getUserMedia ac with
        | Except.error _ =>
          (Except.ok videoStream,
           [HostCall.gum vc, HostCall.enumDevices, HostCall.enumDevices,
            HostCall.gum ac])
        | Except.ok audioStream =>
          (Except.ok (mergeAudioTracks videoStream audioStream.getAudioTracks),
           [HostCall.gum vc, HostCall.enumDevices, HostCall.enumDevices,
            HostCall.gum ac])

/-- Stopping every track of a stream (the loop body of `stopMediaStream`). -/
def MediaStream.stopAllTracks (s : MediaStream) : MediaStream :=
  { s with tracks := s.tracks.map MediaStreamTrack.stop }

/-- `stopMediaStream` from `videoUtils.ts`: `null` guard then stop every
track.  The in-place track mutation is modelled by returning the updated
stream value. -/
def stopMediaStream : Option MediaStream → Option MediaStream
  | none => none
  | some s => some s.stopAllTracks

/-! ## The consuming page component (stream lifecycle) -/

/-- Numeric value of a digit string (the component's `Number(...)` on its
preset strings `"1280"`, `"30"`, ..., which are always all-digit). -/
def digitsVal (s : List Char) : Nat :=
  s.foldl (fun acc c => acc * 10 + (c.toNat - 48)) 0

/-- `Number(s)` on the component's preset strings. -/
def parseNum (s : String) : Nat :=
  digitsVal s.data

/-- The component's `selectedResolution.split('x').map(Number)` destructured
to `[width, height]`: digits before the first `'x'` and digits between the
first and second `'x'`. -/
def parseResolution (s : String) : Nat × Nat :=
  let widthPart := s.data.takeWhile (fun c => c != 'x')
  let rest := (s.data.dropWhile (fun c => c != 'x')).drop 1
  let heightPart := rest.takeWhile (fun c => c != 'x')
  (digitsVal widthPart, digitsVal heightPart)

/-- The component state the lifecycle logic reads and writes. -/
structure UIState where
  selectedDevice : String
  selectedResolution : String
  selectedFps : String
  captureAudio : Bool
  isCapturing : Bool
  stream : Option MediaStream
deriving Repr, DecidableEq

/-- An observable action of `startCapture`, in execution order.
`stoppedOld` records that `stopMediaStream` ran on the previously held
stream, carrying that stream's post-stop value. -/
inductive UIEvent
  | alerted
  | stoppedOld (s : MediaStream)
  | acquired (calls : List HostCall)
  | captureFailed
  | attached (streamId : Nat)
deriving Repr, DecidableEq

/-- `startCapture` from the page component: guard on a selected device,
stop any existing stream, then acquire a new stream with the selected
settings and attach it.  On acquisition failure the `stream` variable keeps
referencing the (already stopped) old stream and an alert is shown. -/
def startCapture (host : Host) (st : UIState) : UIState × List UIEvent :=
  if st.selectedDevice == "" then
    (st, [UIEvent.alerted])
  else
    let wh := parseResolution st.selectedResolution
    let stopped := stopMediaStream st.stream
    let stopEvents : List UIEvent :=
      match st.stream with
      | some old => [UIEvent.stoppedOld old.stopAllTracks]
      | none => []
    match createMediaStream host st.selectedDevice wh.1 wh.2
        (parseNum st.selectedFps) st.captureAudio with
    | (Except.error _, calls) =>
      ({ st with stream := stopped },
       stopEvents ++ [UIEvent.acquired calls, UIEvent.captureFailed])
    | (Except.ok s, calls) =>
      ({ st with stream := some s, isCapturing := true },
       stopEvents ++ [UIEvent.acquired calls, UIEvent.attached s.id])

/-- `onDestroy` from the page component: stop every track of a held
stream. -/
def onDestroy (st : UIState) : UIState :=
  match st.stream with
  | some _ => { st with stream := stopMediaStream st.stream }
  | none => st

/-- Recognizes the attach event of a `startCapture` run. -/
def isAttachEvent : UIEvent → Bool
  | UIEvent.attached _ => true
  | _ => false

/-! ## Concrete fixtures (device inventories, streams, hosts) -/

/-- The scenario's video capture device. -/
def cam1 : MediaDeviceInfo :=
  { deviceId := "cam1", label := "Capture Card (Video)", kind := "videoinput" }

/-- The scenario's paired audio endpoint (label heuristic match). -/
def mic1 : MediaDeviceInfo :=
  { deviceId := "mic1", label := "Capture Card (Audio)", kind := "audioinput" }

/-- An audio device matching only via the label heuristic, with an id
different from the video device's. -/
def micHeur : MediaDeviceInfo :=
  { deviceId := "micA", label := "Capture Card (Audio)", kind := "audioinput" }

/-- An audio device whose id equals the video device's id exactly. -/
def micExact : MediaDeviceInfo :=
  { deviceId := "cam1", label := "Integrated Microphone", kind := "audioinput" }

/-- An audio device matching neither criterion. -/
def micPlain : MediaDeviceInfo :=
  { deviceId := "micB", label := "USB Microphone", kind := "audioinput" }

/-- A live video track / stream, and a live audio track / stream. -/
def camTrack : MediaStreamTrack :=
  { id := 0, kind := TrackKind.video, stopped := false }

/-- A live audio track. -/
def micTrack : MediaStreamTrack :=
  { id := 1, kind := TrackKind.audio, stopped := false }

/-- The stream granted for the video-only request in the fixtures. -/
def camStream : MediaStream :=
  { id := 0, tracks := [camTrack] }

/-- The stream granted for audio requests in the fixtures. -/
def micStream : MediaStream :=
  { id := 1, tracks := [micTrack] }

/-- Host oracle granting `camStream` to any video-bearing request and
`micStream` to any audio-only one. -/
def grantingGum : MediaStreamConstraints → Except HostError MediaStream :=
  fun c =>
    match c.video with
    | VideoSpec.track _ => Except.ok camStream
    | VideoSpec.off => Except.ok micStream

/-- Host for the composite-capture scenario: inventory `[cam1, mic1]`,
display capture denied. -/
def c4Host : Host :=
  { getUserMedia := grantingGum,
    enumFirst := Except.ok [cam1, mic1],
    enumSecond := Except.ok [cam1, mic1],
    getDisplayMedia := fun _ => Except.error { message := "denied" } }

/-- Host whose audio inventory lists a label-heuristic match before an
exact-id match: `[cam1, micHeur, micExact]`. -/
def c1Host : Host :=
  { getUserMedia := grantingGum,
    enumFirst := Except.ok [cam1, micHeur, micExact],
    enumSecond := Except.ok [cam1, micHeur, micExact],
    getDisplayMedia := fun _ => Except.error { message := "denied" } }

/-- Host whose audio inventory lists a non-matching device before the
exact-id match: `[cam1, micPlain, micExact]`. -/
def orderedHost : Host :=
  { getUserMedia := grantingGum,
    enumFirst := Except.ok [cam1, micPlain, micExact],
    enumSecond := Except.ok [cam1, micPlain, micExact],
    getDisplayMedia := fun _ => Except.error { message := "denied" } }

/-- Component state holding a previous stream with `cam1` selected. -/
def uiStart : UIState :=
  { selectedDevice := "cam1", selectedResolution := "1920x1080",
    selectedFps := "30", captureAudio := false, isCapturing := false,
    stream := some micStream }

/-- Host with no audio inventory at all and display capture denied. -/
def noAudioHost : Host :=
  { getUserMedia := grantingGum,
    enumFirst := Except.ok [cam1],
    enumSecond := Except.ok [cam1],
    getDisplayMedia := fun _ => Except.error { message := "denied" } }

/-! ## Helper lemmas -/

/-- `List.find?` ignores a leading segment on which the predicate is false. -/
theorem find?_append_of_false {α : Type} (p : α → Bool) (pre post : List α)
    (d : α) (hpre : ∀ x ∈ pre, p x = false) (hd : p d = true) :
    (pre ++ d :: post).find? p = some d := by
  induction pre with
  | nil => simp [List.find?, hd]
  | cons a as ih =>
    have ha : p a = false := hpre a (by simp)
    simp only [List.cons_append, List.find?, ha]
    exact ih (fun x hx => hpre x (by simp [hx]))

/-- Folding `addTrack` appends the folded tracks to the stream's track set. -/
theorem foldl_addTrack (l : List MediaStreamTrack) (s : MediaStream) :
    l.foldl MediaStream.addTrack s = { id := s.id, tracks := s.tracks ++ l } := by
  induction l generalizing s with
  | nil => simp
  | cons t ts ih =>
    rw [List.foldl_cons, ih]
    simp [MediaStream.addTrack]

/-- The merge step appends exactly the acquired audio tracks. -/
theorem mergeAudioTracks_eq (s : MediaStream) (l : List MediaStreamTrack) :
    mergeAudioTracks s l = { id := s.id, tracks := s.tracks ++ l } := by
  cases l with
  | nil => simp [mergeAudioTracks]
  | cons t ts => simp [mergeAudioTracks, foldl_addTrack, MediaStream.addTrack]

/-- Run of `createMediaStream` when a paired audio device was found. -/
theorem cms_found_eq (host : Host) (dev : String) (w h f : Nat)
    (vs : MediaStream) (d : MediaDeviceInfo)
    (hv : host.getUserMedia (videoConstraints dev w h f) = Except.ok vs)
    (hfind : findAudioDevice dev (getAudioDevices host.enumFirst)
        (getVideoDevices host.enumSecond) = some d) :
    createMediaStream host dev w h f true =
      ((match host.getUserMedia (audioConstraintsFor d) with
        | Except.error _ => Except.ok vs
        | Except.ok as => Except.ok (mergeAudioTracks vs as.getAudioTracks)),
       [HostCall.gum (videoConstraints dev w h f), HostCall.enumDevices,
        HostCall.enumDevices, HostCall.gum (audioConstraintsFor d)]) := by
  simp only [createMediaStream, hv, hfind, Bool.not_true, if_false]
  cases hg : host.getUserMedia (audioConstraintsFor d) <;> simp [hg]

/-- Run of `createMediaStream` when no paired audio device was found. -/
theorem cms_none_eq (host : Host) (dev : String) (w h f : Nat)
    (vs : MediaStream)
    (hv : host.getUserMedia (videoConstraints dev w h f) = Except.ok vs)
    (hfind : findAudioDevice dev (getAudioDevices host.enumFirst)
        (getVideoDevices host.enumSecond) = none) :
    createMediaStream host dev w h f true =
      ((match host.getDisplayMedia displayAudioConstraints with
        | Except.error _ => Except.ok vs
        | Except.ok ds => Except.ok (mergeAudioTracks vs ds.getAudioTracks)),
       [HostCall.gum (videoConstraints dev w h f), HostCall.enumDevices,
        HostCall.enumDevices, HostCall.gdm displayAudioConstraints]) := by
  simp only [createMediaStream, hv, hfind, Bool.not_true, if_false]
  cases hg : host.getDisplayMedia displayAudioConstraints <;> simp [hg]

/-- When the initial video request succeeds, every path yields a stream. -/
theorem cms_ok_of_ok (host : Host) (dev : String) (w h f : Nat) (audio : Bool)
    (vs : MediaStream)
    (hv : host.getUserMedia (videoConstraints dev w h f) = Except.ok vs) :
    ∃ s, (createMediaStream host dev w h f audio).1 = Except.ok s := by
  cases audio with
  | false => exact ⟨vs, by simp [createMediaStream, hv]⟩
  | true =>
    cases hfind : findAudioDevice dev (getAudioDevices host.enumFirst)
        (getVideoDevices host.enumSecond) with
    | none =>
      rw [cms_none_eq host dev w h f vs hv hfind]
      cases host.getDisplayMedia displayAudioConstraints <;> exact ⟨_, rfl⟩
    | some d =>
      rw [cms_found_eq host dev w h f vs d hv hfind]
      cases host.getUserMedia (audioConstraintsFor d) <;> exact ⟨_, rfl⟩

/-- Audio-track getters return only audio-kind tracks. -/
theorem getAudioTracks_all_audio (s : MediaStream) :
    s.getAudioTracks.all (fun t => t.kind == TrackKind.audio) = true := by
  rw [List.all_eq_true]
  intro t ht
  simp only [MediaStream.getAudioTracks] at ht
  exact (List.mem_filter.mp ht).2

/-- Stopping a stream stops every one of its tracks. -/
theorem stopAll_stopped (s : MediaStream) :
    s.stopAllTracks.tracks.all (fun t => t.stopped) = true := by
  rw [List.all_eq_true]
  intro t ht
  simp only [MediaStream.stopAllTracks] at ht
  obtain ⟨t0, _, rfl⟩ := List.mem_map.mp ht
  rfl

/-- `track.stop()` is idempotent. -/
theorem stop_stop (t : MediaStreamTrack) : t.stop.stop = t.stop := rfl

/-- Event trace of `startCapture` when a previous stream is held and a
device is selected: stop first, then acquire, then attach or alert. -/
theorem startCapture_eq_of_stream (host : Host) (st : UIState)
    (old : MediaStream)
    (hold : st.stream = some old) (hdev : (st.selectedDevice == "") = false) :
    (startCapture host st).2 =
      [UIEvent.stoppedOld old.stopAllTracks,
       UIEvent.acquired (createMediaStream host st.selectedDevice
          (parseResolution st.selectedResolution).1
          (parseResolution st.selectedResolution).2
          (parseNum st.selectedFps) st.captureAudio).2,
       match (createMediaStream host st.selectedDevice
          (parseResolution st.selectedResolution).1
          (parseResolution st.selectedResolution).2
          (parseNum st.selectedFps) st.captureAudio).1 with
       | Except.error _ => UIEvent.captureFailed
       | Except.ok ns => UIEvent.attached ns.id] := by
  simp only [startCapture, hold, hdev, Bool.false_eq_true, if_false]
  cases hc : createMediaStream host st.selectedDevice
      (parseResolution st.selectedResolution).1
      (parseResolution st.selectedResolution).2
      (parseNum st.selectedFps) st.captureAudio with
  | mk r calls => cases r <;> simp


/-! ## Claim theorems -/

/-- C1 (counterexample): with audio inventory `[micHeur, micExact]` for
video device `cam1`, the inventory contains a device whose id exactly
equals the requested video device id (`micExact`), yet the audio
acquisition issued by `createMediaStream` targets `micHeur`, an earlier
device matching only the label heuristic — exact id match does not take
priority. -/
theorem C1_find_is_not_prioritized :
    (getAudioDevices c1Host.enumFirst).any (fun d => d.deviceId == "cam1") = true ∧
    (createMediaStream c1Host "cam1" 1920 1080 30 true).2 =
      [HostCall.gum (videoConstraints "cam1" 1920 1080 30), HostCall.enumDevices,
       HostCall.enumDevices, HostCall.gum (audioConstraintsFor micHeur)] ∧
    micHeur.deviceId ≠ "cam1" := by
  refine ⟨by decide, by decide, by decide⟩

/-- C1 (amended): the selected audio device is the first one in enumeration
order satisfying the exact-id-or-label-heuristic predicate; in particular a
device whose id equals the requested video device id is the one used for
audio acquisition whenever every earlier audio device satisfies neither
criterion. -/
theorem C1_exact_match_when_first (host : Host) (dev : String) (w h f : Nat)
    (vs : MediaStream) (pre post : List MediaDeviceInfo) (d : MediaDeviceInfo)
    (hv : host.getUserMedia (videoConstraints dev w h f) = Except.ok vs)
    (henum : getAudioDevices host.enumFirst = pre ++ d :: post)
    (hpre : ∀ x ∈ pre, audioMatches dev (getVideoDevices host.enumSecond) x = false)
    (hid : d.deviceId = dev) :
    (createMediaStream host dev w h f true).2 =
      [HostCall.gum (videoConstraints dev w h f), HostCall.enumDevices,
       HostCall.enumDevices, HostCall.gum (audioConstraintsFor d)] := by
  have hd : audioMatches dev (getVideoDevices host.enumSecond) d = true := by
    simp [audioMatches, hid]
  have hfind : findAudioDevice dev (getAudioDevices host.enumFirst)
      (getVideoDevices host.enumSecond) = some d := by
    rw [findAudioDevice, henum]
    exact find?_append_of_false _ pre post d hpre hd
  rw [cms_found_eq host dev w h f vs d hv hfind]

/-- C1 (amended, witness): with inventory `[micPlain, micExact]` where the
first device matches neither criterion, the exact-id device `micExact` is
the one used for audio acquisition. -/
theorem C1_exact_match_when_first_witness :
    (createMediaStream orderedHost "cam1" 1920 1080 30 true).2 =
      [HostCall.gum (videoConstraints "cam1" 1920 1080 30), HostCall.enumDevices,
       HostCall.enumDevices, HostCall.gum (audioConstraintsFor micExact)] :=
  C1_exact_match_when_first orderedHost "cam1" 1920 1080 30 camStream
    [micPlain] [] micExact rfl (by decide) (by decide) rfl

/-- C2: `createMediaStream` propagates an error to its caller if and only
if the initial video-only getUserMedia request fails; when that request
succeeds, a failing display-audio capture or a failing per-device audio
acquisition does not escape — the video-only stream is returned instead. -/
theorem C2_video_error_only (host : Host) (dev : String) (w h f : Nat)
    (audio : Bool) (e : HostError) (vs : MediaStream) :
    (((createMediaStream host dev w h f audio).1 = Except.error e) ↔
      host.getUserMedia (videoConstraints dev w h f) = Except.error e) ∧
    (host.getUserMedia (videoConstraints dev w h f) = Except.ok vs →
      (findAudioDevice dev (getAudioDevices host.enumFirst)
          (getVideoDevices host.enumSecond) = none →
        (∃ e2, host.getDisplayMedia displayAudioConstraints = Except.error e2) →
        (createMediaStream host dev w h f true).1 = Except.ok vs) ∧
      (∀ d, findAudioDevice dev (getAudioDevices host.enumFirst)
          (getVideoDevices host.enumSecond) = some d →
        (∃ e2, host.getUserMedia (audioConstraintsFor d) = Except.error e2) →
        (createMediaStream host dev w h f true).1 = Except.ok vs)) := by
  constructor
  · constructor
    · intro hres
      cases hg : host.getUserMedia (videoConstraints dev w h f) with
      | error e2 =>
        have heq : (createMediaStream host dev w h f audio).1 = Except.error e2 := by
          simp [createMediaStream, hg]
        have h2 : e2 = e := Except.error.inj (heq.symm.trans hres)
        rw [← h2]
      | ok vs2 =>
        obtain ⟨s, hs⟩ := cms_ok_of_ok host dev w h f audio vs2 hg
        rw [hs] at hres
        exact absurd hres (by simp)
    · intro hg
      simp [createMediaStream, hg]
  · intro hv
    constructor
    · rintro hfind ⟨e2, hgdm⟩
      rw [cms_none_eq host dev w h f vs hv hfind]
      simp [hgdm]
    · rintro d hfind ⟨e2, hga⟩
      rw [cms_found_eq host dev w h f vs d hv hfind]
      simp [hga]

/-- C2 (witness): with no matching audio device and display capture denied,
the video-only stream is still returned. -/
theorem C2_video_error_only_witness :
    (createMediaStream noAudioHost "cam1" 1920 1080 30 true).1 =
      Except.ok camStream :=
  (((C2_video_error_only noAudioHost "cam1" 1920 1080 30 true
      { message := "" } camStream).2 rfl).1 (by decide)
    ⟨{ message := "denied" }, rfl⟩)

/-- C3: with `audio=false` the result is exactly the stream granted for the
video-only (audio off) constraint, the only host call is that video
request (no pairing step runs), and — the host honouring the audio-off
constraint — the returned stream carries no audio track. -/
theorem C3_video_only (host : Host) (dev : String) (w h f : Nat)
    (vs : MediaStream)
    (hv : host.getUserMedia (videoConstraints dev w h f) = Except.ok vs)
    (honest : vs.getAudioTracks = []) :
    (createMediaStream host dev w h f false).1 = Except.ok vs ∧
    (createMediaStream host dev w h f false).2 =
      [HostCall.gum (videoConstraints dev w h f)] ∧
    vs.getAudioTracks = [] := by
  refine ⟨by simp [createMediaStream, hv], by simp [createMediaStream, hv], honest⟩

/-- C3 (witness). -/
theorem C3_video_only_witness :
    (createMediaStream c4Host "cam1" 1920 1080 30 false).1 =
      Except.ok camStream ∧
    (createMediaStream c4Host "cam1" 1920 1080 30 false).2 =
      [HostCall.gum (videoConstraints "cam1" 1920 1080 30)] ∧
    camStream.getAudioTracks = [] :=
  C3_video_only c4Host "cam1" 1920 1080 30 camStream rfl (by decide)

/-- C4: in the scenario with video `{id:"cam1", label:"Capture Card
(Video)"}` and audio `{id:"mic1", label:"Capture Card (Audio)"}`, requesting
audio for `cam1` selects `mic1` via the label heuristic (not via id), and
the audio acquisition targets `mic1`. -/
theorem C4_label_scenario :
    findAudioDevice "cam1" (getAudioDevices c4Host.enumFirst)
        (getVideoDevices c4Host.enumSecond) = some mic1 ∧
    mic1.deviceId ≠ "cam1" ∧
    (createMediaStream c4Host "cam1" 1920 1080 30 true).2 =
      [HostCall.gum (videoConstraints "cam1" 1920 1080 30), HostCall.enumDevices,
       HostCall.enumDevices, HostCall.gum (audioConstraintsFor mic1)] := by
  refine ⟨by decide, by decide, by decide⟩

/-- C5: whenever the audio-device lookup finds a device, the audio request
issued uses that device's id as an exact constraint with echoCancellation,
noiseSuppression and autoGainControl all set to false. -/
theorem C5_audio_constraint_shape (host : Host) (dev : String) (w h f : Nat)
    (vs : MediaStream) (d : MediaDeviceInfo)
    (hv : host.getUserMedia (videoConstraints dev w h f) = Except.ok vs)
    (hfind : findAudioDevice dev (getAudioDevices host.enumFirst)
        (getVideoDevices host.enumSecond) = some d) :
    HostCall.gum (audioConstraintsFor d) ∈
      (createMediaStream host dev w h f true).2 ∧
    audioConstraintsFor d =
      { video := VideoSpec.off,
        audio := AudioSpec.track
          { deviceId := { exact := d.deviceId },
            echoCancellation := false,
            noiseSuppression := false,
            autoGainControl := false } } := by
  refine ⟨?_, rfl⟩
  rw [cms_found_eq host dev w h f vs d hv hfind]
  simp

/-- C5 (witness). -/
theorem C5_audio_constraint_shape_witness :
    HostCall.gum (audioConstraintsFor mic1) ∈
      (createMediaStream c4Host "cam1" 1920 1080 30 true).2 ∧
    audioConstraintsFor mic1 =
      { video := VideoSpec.off,
        audio := AudioSpec.track
          { deviceId := { exact := mic1.deviceId },
            echoCancellation := false,
            noiseSuppression := false,
            autoGainControl := false } } :=
  C5_audio_constraint_shape c4Host "cam1" 1920 1080 30 camStream mic1 rfl
    (by decide)

/-- C6: for every input, the first host call of every run is the video
request, which constrains the device id as exact and passes width, height
and frame rate only as ideal hints, with audio off. -/
theorem C6_initial_constraints (host : Host) (dev : String) (w h f : Nat)
    (audio : Bool) :
    (createMediaStream host dev w h f audio).2.head? =
      some (HostCall.gum (videoConstraints dev w h f)) ∧
    videoConstraints dev w h f =
      { video := VideoSpec.track
          { deviceId := { exact := dev },
            width := { ideal := w },
            height := { ideal := h },
            frameRate := { ideal := f } },
        audio := AudioSpec.off } := by
  refine ⟨?_, rfl⟩
  cases hg : host.getUserMedia (videoConstraints dev w h f) with
  | error e => simp [createMediaStream, hg]
  | ok vs =>
    cases audio with
    | false => simp [createMediaStream, hg]
    | true =>
      cases hfind : findAudioDevice dev (getAudioDevices host.enumFirst)
          (getVideoDevices host.enumSecond) with
      | none =>
        rw [cms_none_eq host dev w h f vs hg hfind]
        rfl
      | some d =>
        rw [cms_found_eq host dev w h f vs d hg hfind]
        rfl

/-- C7: `stopMediaStream` stops every track of the given stream, is a
no-op without error on `null`, and a second call on the same
(already-stopped) stream changes nothing. -/
theorem C7_release (s : MediaStream) :
    stopMediaStream (some s) = some s.stopAllTracks ∧
    s.stopAllTracks.tracks.all (fun t => t.stopped) = true ∧
    stopMediaStream none = none ∧
    stopMediaStream (stopMediaStream (some s)) = stopMediaStream (some s) := by
  refine ⟨rfl, stopAll_stopped s, rfl, ?_⟩
  simp [stopMediaStream, MediaStream.stopAllTracks, List.map_map,
    Function.comp, stop_stop]

/-- C8: device listing returns the empty list on any enumeration error,
and on success only descriptors of the requested kind. -/
theorem C8_list_devices (e : HostError) (l : List MediaDeviceInfo) :
    getVideoDevices (Except.error e) = [] ∧
    getAudioDevices (Except.error e) = [] ∧
    (getVideoDevices (Except.ok l)).all (fun d => d.kind == "videoinput") = true ∧
    (getAudioDevices (Except.ok l)).all (fun d => d.kind == "audioinput") = true := by
  refine ⟨rfl, rfl, ?_, ?_⟩ <;>
  · rw [List.all_eq_true]
    intro d hd
    simp only [getVideoDevices, getAudioDevices] at hd
    exact (List.mem_filter.mp hd).2

/-- C9: when `startCapture` runs with a previously held stream and a
selected device, its first observable action is stopping that stream (all
of whose tracks end up stopped) before the new acquisition and attach, at
most one attach event occurs per run, and `onDestroy` stops every track of
a held stream. -/
theorem C9_single_active_stream (host : Host) (st st2 : UIState)
    (old s : MediaStream)
    (hold : st.stream = some old) (hdev : (st.selectedDevice == "") = false)
    (hs : st2.stream = some s) :
    ((startCapture host st).2.head? =
        some (UIEvent.stoppedOld old.stopAllTracks) ∧
      old.stopAllTracks.tracks.all (fun t => t.stopped) = true ∧
      (startCapture host st).2.countP isAttachEvent ≤ 1) ∧
    ((onDestroy st2).stream = some s.stopAllTracks ∧
      s.stopAllTracks.tracks.all (fun t => t.stopped) = true) := by
  have hsc := startCapture_eq_of_stream host st old hold hdev
  refine ⟨⟨?_, stopAll_stopped old, ?_⟩, ?_, stopAll_stopped s⟩
  · rw [hsc]
    rfl
  · rw [hsc]
    cases (createMediaStream host st.selectedDevice
        (parseResolution st.selectedResolution).1
        (parseResolution st.selectedResolution).2
        (parseNum st.selectedFps) st.captureAudio).1 <;>
      simp [List.countP_cons, isAttachEvent]
  · simp [onDestroy, hs, stopMediaStream]

/-- C9 (witness). -/
theorem C9_single_active_stream_witness :
    ((startCapture c4Host uiStart).2.head? =
        some (UIEvent.stoppedOld micStream.stopAllTracks) ∧
      micStream.stopAllTracks.tracks.all (fun t => t.stopped) = true ∧
      (startCapture c4Host uiStart).2.countP isAttachEvent ≤ 1) ∧
    ((onDestroy uiStart).stream = some micStream.stopAllTracks ∧
      micStream.stopAllTracks.tracks.all (fun t => t.stopped) = true) :=
  C9_single_active_stream c4Host uiStart uiStart micStream micStream rfl rfl rfl

/-- C10: with `audio=true` and a successful initial video acquisition, the
returned stream keeps the video stream's identity, keeps its original
tracks unchanged as a prefix, and everything appended after them is an
audio track (possibly nothing). -/
theorem C10_audio_only_appends (host : Host) (dev : String) (w h f : Nat)
    (vs s : MediaStream)
    (hv : host.getUserMedia (videoConstraints dev w h f) = Except.ok vs)
    (hres : (createMediaStream host dev w h f true).1 = Except.ok s) :
    s.id = vs.id ∧
    s.tracks.take vs.tracks.length = vs.tracks ∧
    (s.tracks.drop vs.tracks.length).all
      (fun t => t.kind == TrackKind.audio) = true := by
  have key : ∃ added, (createMediaStream host dev w h f true).1 =
      Except.ok { id := vs.id, tracks := vs.tracks ++ added } ∧
      added.all (fun t => t.kind == TrackKind.audio) = true := by
    cases hfind : findAudioDevice dev (getAudioDevices host.enumFirst)
        (getVideoDevices host.enumSecond) with
    | none =>
      rw [cms_none_eq host dev w h f vs hv hfind]
      cases hg : host.getDisplayMedia displayAudioConstraints with
      | error e2 => exact ⟨[], by simp, rfl⟩
      | ok ds =>
        exact ⟨ds.getAudioTracks, by simp [mergeAudioTracks_eq],
          getAudioTracks_all_audio ds⟩
    | some d =>
      rw [cms_found_eq host dev w h f vs d hv hfind]
      cases hg : host.getUserMedia (audioConstraintsFor d) with
      | error e2 => exact ⟨[], by simp, rfl⟩
      | ok as =>
        exact ⟨as.getAudioTracks, by simp [mergeAudioTracks_eq],
          getAudioTracks_all_audio as⟩
  obtain ⟨added, hk, hall⟩ := key
  have hss : s = { id := vs.id, tracks := vs.tracks ++ added } :=
    Except.ok.inj (hres.symm.trans hk)
  subst hss
  refine ⟨rfl, ?_, ?_⟩
  · simp [List.take_left]
  · simp [List.drop_left, hall]

/-- C10 (witness): in the composite-capture scenario the returned stream is
the video stream with the paired audio track appended. -/
theorem C10_audio_only_appends_witness :
    (MediaStream.mk 0 [camTrack, micTrack]).id = camStream.id ∧
    (MediaStream.mk 0 [camTrack, micTrack]).tracks.take
      camStream.tracks.length = camStream.tracks ∧
    ((MediaStream.mk 0 [camTrack, micTrack]).tracks.drop
      camStream.tracks.length).all (fun t => t.kind == TrackKind.audio) = true :=
  C10_audio_only_appends c4Host "cam1" 1920 1080 30 camStream
    (MediaStream.mk 0 [camTrack, micTrack]) rfl rfl

end QuickCap
